import Mathlib

/-!
Verification development for the payzy-backend authentication core.

The Python sources under app/ are shallowly embedded: async functions become
pure Lean functions with the database state passed explicitly, Python
exceptions become an explicit error type threaded through `Except`, and wall
clock instants are integers (UTC seconds).  Each definition carries a comment
naming the Python function it embeds.
-/

namespace Payzy

/-! Python-level values and errors. -/

/-- Exceptions that cross the boundaries relevant to the claims.  `http`
embeds fastapi.HTTPException with its status code and detail string; the
remaining constructors embed the ordinary Python exception classes raised by
the libraries the code calls. -/
inductive PyErr where
  | http (statusCode : Nat) (detail : String)
  | valueErr (msg : String)
  | typeErr (msg : String)
  | integrityErr (msg : String)
  | unknownHashErr (msg : String)
  | runtimeErr (msg : String)
  | dbErr (msg : String)
deriving DecidableEq, Repr

deriving instance DecidableEq for Except

/-- Values a program point may feed to str() and later int(): the user id
handed to create_access_token is typed int in the signature, but the service
layer passes the UUID primary key of UserEntity, so both shapes occur. -/
inductive PyVal where
  | int (i : Int)
  | uuid (u : Nat)
  | str (s : String)
deriving DecidableEq, Repr

/-- Python int(str(v)): the round trip is the identity on integers and raises
ValueError on a UUID or any other non-numeric string form. -/
def pyInt : PyVal → Except PyErr Int
  | .int i => .ok i
  | .uuid _ => .error (.valueErr "invalid literal for int with base 10")
  | .str s =>
    match s.toInt? with
    | some i => .ok i
    | none => .error (.valueErr "invalid literal for int with base 10")

/-! Configuration (app/core/config.py). -/

/-- The settings fields the embedded code reads.  The pydantic validator on
ACCESS_TOKEN_EXPIRE_MINUTES enforces gt=0, le=1440; the default is 30. -/
structure Settings where
  SECRET_KEY : Nat
  ACCESS_TOKEN_EXPIRE_MINUTES : Int
deriving DecidableEq, Repr

/-! JWT model (python-jose, as used by app/core/security.py). -/

/-- The claims dictionary built by create_access_token.  The sub claim is
stored as str(value); `sub` records the value whose string form it is, and
pyInt gives the semantics of the int() applied on the way out. -/
structure JwtPayload where
  sub : Option PyVal
  exp : Int
  iat : Int
  type : Option String
deriving DecidableEq, Repr

/-- Injective code of a string, used inside the signature function. -/
def strCode (s : String) : Nat :=
  s.data.foldl (fun a c => a * 1114112 + c.toNat + 1) 0

/-- Code of a Python value as it appears serialized inside a token. -/
def pyValCode : PyVal → Nat
  | .int i => Nat.pair 0 (if 0 ≤ i then 2 * i.toNat else 2 * (-i).toNat - 1)
  | .uuid u => Nat.pair 1 u
  | .str s => Nat.pair 2 (strCode s)

/-- Code of a whole payload. -/
def payloadCode (p : JwtPayload) : Nat :=
  Nat.pair (match p.sub with | none => 0 | some v => pyValCode v + 1)
    (Nat.pair (if 0 ≤ p.exp then 2 * p.exp.toNat else 2 * (-p.exp).toNat - 1)
      (Nat.pair (if 0 ≤ p.iat then 2 * p.iat.toNat else 2 * (-p.iat).toNat - 1)
        (match p.type with | none => 0 | some t => strCode t + 1)))

/-- Model of the HS256 signature over the encoded claims: an arbitrary
concrete keyed function of the secret and the payload. -/
def jwtSign (secret : Nat) (p : JwtPayload) : Nat :=
  Nat.pair secret (payloadCode p)

/-- A token string: either the base64 segments of a signed payload, or a
string that does not parse as a JWT at all. -/
inductive Token where
  | signed (payload : JwtPayload) (sig : Nat)
  | garbage (s : String)
deriving DecidableEq, Repr

/-- jose jwt.encode: serialize the claims and append the signature. -/
def jwtEncode (secret : Nat) (p : JwtPayload) : Token :=
  .signed p (jwtSign secret p)

/-- jose jwt.decode with default options: reject an unparseable token, a bad
signature, or an expired token (exp strictly in the past, no leeway), in that
order; each rejection raises a JWTError, here collapsed to none.  No claim is
ever returned from a token that failed any check. -/
def jwtDecode (secret : Nat) (now : Int) : Token → Option JwtPayload
  | .garbage _ => none
  | .signed p sig =>
    if sig = jwtSign secret p then
      if p.exp < now then none else some p
    else none

/-! app/core/security.py: token issue and verify. -/

/-- app/schemas/auth.py TokenData. -/
structure TokenData where
  user_id : Int
deriving DecidableEq, Repr

/-- app/core/security.py create_access_token.  Python `expires_delta or
default` treats both None and a zero timedelta as falsy, so both fall back to
ACCESS_TOKEN_EXPIRE_MINUTES.  The two datetime.now calls in the body are taken
at the same modelled instant `now`; durations are in seconds. -/
def create_access_token (s : Settings) (now : Int) (user_id : PyVal)
    (expires_delta : Option Int) : Token :=
  let delta : Int :=
    match expires_delta with
    | none => s.ACCESS_TOKEN_EXPIRE_MINUTES * 60
    | some d => if d = 0 then s.ACCESS_TOKEN_EXPIRE_MINUTES * 60 else d
  jwtEncode s.SECRET_KEY
    { sub := some user_id, exp := now + delta, iat := now, type := some "access" }

/-- app/core/security.py verify_token.  The try block catches JWTError only:
decode failures return None, as do a missing sub claim and a wrong type
claim, but the final int(user_id) conversion can raise ValueError, which is
not a JWTError and escapes the function. -/
def verify_token (s : Settings) (now : Int) (token : Token) :
    Except PyErr (Option TokenData) :=
  match jwtDecode s.SECRET_KEY now token with
  | none => .ok none
  | some payload =>
    match payload.sub with
    | none => .ok none
    | some user_id =>
      let token_type := payload.type.getD ""
      if token_type ≠ "access" then .ok none
      else
        match pyInt user_id with
        | .error e => .error e
        | .ok uid => .ok (some { user_id := uid })

/-! app/core/security.py: password hashing (passlib CryptContext, bcrypt). -/

/-- The parsed form of a bcrypt modular-crypt digest: cost parameter, salt,
and the derived key.  The key derivation is modelled as an ideal function,
injective in the password for each fixed salt; real-world collisions are
outside the model. -/
structure BcryptRecord where
  rounds : Nat
  salt : Nat
  key : List Char
deriving DecidableEq, Repr

/-- A stored digest string: it either parses as a bcrypt record or it is not
recognizable by any configured scheme (CryptContext.identify). -/
inductive Digest where
  | bcrypt (rec : BcryptRecord)
  | unrecognized (s : String)
deriving DecidableEq, Repr

/-- Ideal model of the bcrypt key derivation: a function of salt and password
that is injective in the password for each fixed salt. -/
def bcryptKdf (salt : Nat) (password : String) : List Char :=
  (toString salt).data ++ password.data

/-- app/core/security.py create_password_hash: pwd_context.hash with
bcrypt__rounds=12; the salt is drawn from the OS entropy source and is passed
here explicitly. -/
def create_password_hash (salt : Nat) (password : String) : Digest :=
  .bcrypt { rounds := 12, salt := salt, key := bcryptKdf salt password }

/-- app/core/security.py verify_password: pwd_context.verify.  passlib first
identifies the scheme of the stored digest and raises UnknownHashError when
no configured scheme matches; verify_password adds no handler of its own, so
that error escapes.  On a recognized digest it recomputes the key with the
stored salt and cost and compares. -/
def verify_password (plain_password : String) (hashed_password : Digest) :
    Except PyErr Bool :=
  match hashed_password with
  | .unrecognized _ => .error (.unknownHashErr "hash could not be identified")
  | .bcrypt rec => .ok (bcryptKdf rec.salt plain_password == rec.key)

/-! app/entity/user.py and app/core/database.py model_to_dict. -/

/-- Column values as serialized by _serialize_value. -/
inductive FieldVal where
  | vNone
  | vStr (s : String)
  | vInt (i : Int)
  | vBool (b : Bool)
  | vUuid (u : Nat)
  | vDigest (d : Digest)
deriving DecidableEq, Repr

/-- Lift an optional string column. -/
def optStr : Option String → FieldVal
  | none => .vNone
  | some s => .vStr s

/-- Lift an optional timestamp column. -/
def optTime : Option Int → FieldVal
  | none => .vNone
  | some t => .vInt t

/-- app/entity/user.py UserEntity: the users table row.  The UUID primary key
is modelled as an opaque Nat; the table has no created_at or updated_at
columns. -/
structure UserEntity where
  user_id : Nat
  email : String
  full_name : String
  hashed_password : Digest
  is_active : Bool
  is_verified : Bool
  last_login : Option Int
  phone : Option String
  avatar_url : Option String
  bio : Option String
  currency : String
  timezone : String
deriving DecidableEq, Repr

/-- Base.to_dict via model_to_dict with no exclusions: one entry per mapped
column of the users table, hashed_password included. -/
def UserEntity.to_dict (u : UserEntity) : List (String × FieldVal) :=
  [("user_id", .vUuid u.user_id),
   ("email", .vStr u.email),
   ("full_name", .vStr u.full_name),
   ("hashed_password", .vDigest u.hashed_password),
   ("is_active", .vBool u.is_active),
   ("is_verified", .vBool u.is_verified),
   ("last_login", optTime u.last_login),
   ("phone", optStr u.phone),
   ("avatar_url", optStr u.avatar_url),
   ("bio", optStr u.bio),
   ("currency", .vStr u.currency),
   ("timezone", .vStr u.timezone)]

/-- The fields declared on app/dto/user.py UserResponse, in declaration
order.  All are optional with default None. -/
def userResponseFields : List String :=
  ["user_id", "email", "full_name", "phone", "bio", "currency", "timezone",
   "is_active", "is_verified", "created_at", "updated_at"]

/-- Reading one declared field out of a source dict during model_validate:
an absent key leaves the default None. -/
def lookupField (d : List (String × FieldVal)) (k : String) : FieldVal :=
  match d.find? (fun kv => kv.1 == k) with
  | some kv => kv.2
  | none => .vNone

/-- UserResponse.model_validate(d).model_dump(exclude_none=True): keep, in
declaration order, exactly the declared fields that are present and not None;
keys not declared on UserResponse are ignored by pydantic. -/
def modelDumpExcludeNone (d : List (String × FieldVal)) :
    List (String × FieldVal) :=
  (userResponseFields.map (fun k => (k, lookupField d k))).filter
    (fun kv => !(kv.2 == FieldVal.vNone))

/-- The public user representation built by register_user, authenticate_user
and get_current_user: UserResponse.model_validate(user.to_dict()) followed by
model_dump(mode=json, exclude_none=True). -/
def publicUser (u : UserEntity) : List (String × FieldVal) :=
  modelDumpExcludeNone u.to_dict

/-- Decidable check that a representation carries only declared public keys
and in particular no password-hash field. -/
def publicKeysOnly (d : List (String × FieldVal)) : Bool :=
  (d.map Prod.fst).all (fun k => userResponseFields.contains k) &&
    !((d.map Prod.fst).contains "hashed_password") &&
    !((d.map Prod.fst).contains "password")

/-! app/dao/user.py UserCRUD (the variant the service layer uses). -/

/-- app/dto/user.py UserRegistrationRequest after validation: the payload
carries no is_active or is_verified field at all. -/
structure UserRegistrationRequest where
  email : String
  full_name : String
  phone : Option String
  bio : Option String
  currency : String
  timezone : String
  password : String
deriving DecidableEq, Repr

/-- app/dao/user.py UserCRUD.get_by_email: select by email,
scalar_one_or_none. -/
def get_by_email (store : List UserEntity) (email : String) :
    Option UserEntity :=
  store.find? (fun u => u.email == email)

/-- app/dao/user.py UserCRUD.create.  The existence check and the flush read
the database at two instants; a commit by a concurrent request between them
is represented by letting the flush see a possibly different store
(insertStore).  The unique constraint on email raises IntegrityError at flush
time and the method installs no handler for it.  The second component is the
store visible after the call: unchanged whenever an error is raised (the
surrounding scoped session rolls back). -/
def UserCRUD.create (salt newId : Nat)
    (checkStore insertStore : List UserEntity)
    (obj_in : UserRegistrationRequest) :
    Except PyErr UserEntity × List UserEntity :=
  match get_by_email checkStore obj_in.email with
  | some _ => (.error (.http 400 "Email already registered"), insertStore)
  | none =>
    let db_user : UserEntity :=
      { user_id := newId
        email := obj_in.email
        full_name := obj_in.full_name
        hashed_password := create_password_hash salt obj_in.password
        is_active := true
        is_verified := false
        last_login := none
        phone := obj_in.phone
        avatar_url := none
        bio := obj_in.bio
        currency := obj_in.currency
        timezone := obj_in.timezone }
    match get_by_email insertStore obj_in.email with
    | some _ =>
      (.error (.integrityErr "duplicate key value violates unique constraint uq_users_email"),
       insertStore)
    | none => (.ok db_user, insertStore ++ [db_user])

/-- app/dao/user.py UserCRUD.authenticate: fetch by email; on a miss return
None without touching the hasher; otherwise verify the password against the
stored digest and return the row only on a match. -/
def UserCRUD.authenticate (store : List UserEntity)
    (email password : String) : Except PyErr (Option UserEntity) :=
  match get_by_email store email with
  | none => .ok none
  | some user =>
    match verify_password password user.hashed_password with
    | .error e => .error e
    | .ok b => if b then .ok (some user) else .ok none

/-- The user lookup as invoked from AuthService.get_current_user.  The
service does user_dao.get(db, user_id=token_data.user_id), but
app/dao/user.py exports the instance under the name user_crud, its get method
accepts the keyword id, and its query filters on UserEntity.id, a column that
does not exist (the primary key column is user_id).  The invocation therefore
raises before any row can be returned. -/
def dao_get_call (_store : List UserEntity) (_user_id : Int) :
    Except PyErr (Option UserEntity) :=
  .error (.typeErr "get() got an unexpected keyword argument user_id")

/-! app/services/auth_service.py AuthService. -/

/-- app/services/auth_service.py AuthService.register_user: delegate to the
DAO; re-raise HTTPException unchanged; map any other exception to an opaque
500 Registration failed.  The second component is the store visible after the
call. -/
def AuthService.register_user (salt newId : Nat)
    (checkStore insertStore : List UserEntity)
    (user_data : UserRegistrationRequest) :
    Except PyErr (List (String × FieldVal)) × List UserEntity :=
  match UserCRUD.create salt newId checkStore insertStore user_data with
  | (.ok user, store) => (.ok (publicUser user), store)
  | (.error (.http c d), store) => (.error (.http c d), store)
  | (.error _, store) => (.error (.http 500 "Registration failed"), store)

/-- app/dto/auth.py LoginRequest. -/
structure LoginRequest where
  email : String
  password : String
deriving DecidableEq, Repr

/-- app/dto/auth.py LoginResponse. -/
structure LoginResponse where
  access_token : Token
  token_type : String
  expires_in : Int
  user : List (String × FieldVal)
deriving DecidableEq, Repr

/-- The UPDATE executed by _update_last_login, applied to the row with the
matching primary key. -/
def UserEntity.setLastLogin (u : UserEntity) (t : Int) : UserEntity :=
  { u with last_login := some t }

/-- Primary-key lookup used to model db.refresh re-reading the row. -/
def get_by_user_id (store : List UserEntity) (uid : Nat) :
    Option UserEntity :=
  store.find? (fun u => u.user_id == uid)

/-- app/services/auth_service.py AuthService.authenticate_user.  updateErr
is the outcome of the last-login UPDATE statement: _update_last_login wraps
that statement in try/except Exception and only logs on failure, so a failed
update leaves the store unchanged and the flow continues.  refreshErr is the
outcome of the separate db.refresh call, which has no such handler: its
failure reaches the generic handler and becomes a 500.  Any non-HTTP
exception from authentication is likewise mapped to 500 by the outer
handler.  The second component is the store visible after the call (errors
roll back). -/
def AuthService.authenticate_user (s : Settings) (now : Int)
    (store : List UserEntity) (login_data : LoginRequest)
    (updateErr : Option PyErr) (refreshErr : Option PyErr) :
    Except PyErr LoginResponse × List UserEntity :=
  match UserCRUD.authenticate store login_data.email login_data.password with
  | .error _ => (.error (.http 500 "Login failed"), store)
  | .ok none =>
    (.error (.http 401 "Incorrect email or password"), store)
  | .ok (some user) =>
    if user.is_active = false then
      (.error (.http 400 "Inactive user account"), store)
    else
      let access_token :=
        create_access_token s now (.uuid user.user_id)
          (some (s.ACCESS_TOKEN_EXPIRE_MINUTES * 60))
      let store2 :=
        match updateErr with
        | some _ => store
        | none =>
          store.map (fun v =>
            if v.user_id == user.user_id then v.setLastLogin now else v)
      match refreshErr with
      | some _ => (.error (.http 500 "Login failed"), store)
      | none =>
        let user2 := (get_by_user_id store2 user.user_id).getD user
        (.ok { access_token := access_token
               token_type := "bearer"
               expires_in := s.ACCESS_TOKEN_EXPIRE_MINUTES * 60
               user := publicUser user2 }, store2)

/-- app/services/auth_service.py AuthService.get_current_user.  Everything
runs inside one try block whose handlers re-raise HTTPException and map every
other exception to a 500 with detail Login failed.  A ValueError escaping
verify_token therefore becomes a 500, and so does the TypeError raised by the
broken dao_get_call, which makes the None-user and inactive-user branches
unreachable. -/
def AuthService.get_current_user (s : Settings) (now : Int)
    (store : List UserEntity) (access_token : Token) :
    Except PyErr (List (String × FieldVal)) :=
  match verify_token s now access_token with
  | .error _ => .error (.http 500 "Login failed")
  | .ok none => .error (.http 401 "Could not validate credentials")
  | .ok (some token_data) =>
    match dao_get_call store token_data.user_id with
    | .error (.http c d) => .error (.http c d)
    | .error _ => .error (.http 500 "Login failed")
    | .ok none => .error (.http 401 "Could not validate credentials")
    | .ok (some user) =>
      if user.is_active = false then .error (.http 400 "Inactive user")
      else .ok (publicUser user)

/-! app/core/database.py DatabaseSessionManager. -/

/-- The pool parameters init_db passes to create_async_engine. -/
structure EngineConfig where
  pool_size : Nat
  max_overflow : Nat
  pool_timeout : Nat
  pool_recycle : Nat
  pool_pre_ping : Bool
deriving DecidableEq, Repr

/-- The mutable fields of DatabaseSessionManager. -/
structure DatabaseSessionManager where
  engine : Option EngineConfig
  session_factory : Bool
  is_initialized : Bool
deriving DecidableEq, Repr

/-- DatabaseSessionManager.__init__. -/
def DatabaseSessionManager.new : DatabaseSessionManager :=
  { engine := none, session_factory := false, is_initialized := false }

/-- DatabaseSessionManager.init_db: a warning-and-return no-op when already
initialized; otherwise build the engine and the session factory and set the
flag. -/
def DatabaseSessionManager.init_db (m : DatabaseSessionManager)
    (cfg : EngineConfig) : DatabaseSessionManager :=
  if m.is_initialized then m
  else { engine := some cfg, session_factory := true, is_initialized := true }

/-- DatabaseSessionManager.close: dispose the engine if there is one and
clear every field, returning to the freshly constructed state; a no-op when
no engine exists. -/
def DatabaseSessionManager.close (m : DatabaseSessionManager) :
    DatabaseSessionManager :=
  match m.engine with
  | none => m
  | some _ =>
    { engine := none, session_factory := false, is_initialized := false }

/-- Session lifecycle events observable on one pass through get_session, in
order of occurrence. -/
inductive SessionEvent where
  | created
  | committed
  | rolledBack
  | closed
deriving DecidableEq, Repr

/-- One pass through DatabaseSessionManager.get_session around a unit of
work.  unit is the outcome of the code run at the yield point; commitErr and
rollbackErr say whether session.commit() or session.rollback() themselves
raise.  Per the Python try/except/finally: a successful unit is committed; a
raising unit triggers rollback and the original error is re-raised; an error
from commit is caught by the same except clause, which rolls back and
re-raises it; an error from rollback replaces the propagated error; the
finally clause closes the session on every path.  Returns the ordered event
trace and the outcome. -/
def get_session_run (α : Type) (m : DatabaseSessionManager)
    (unit : Except PyErr α) (commitErr rollbackErr : Option PyErr) :
    List SessionEvent × Except PyErr α :=
  if m.is_initialized = false ∨ m.session_factory = false then
    ([], .error (.runtimeErr
      "Database session manager is not initialized. Call init_db() first."))
  else
    match unit with
    | .error e =>
      match rollbackErr with
      | none => ([.created, .rolledBack, .closed], .error e)
      | some e2 => ([.created, .closed], .error e2)
    | .ok a =>
      match commitErr with
      | none => ([.created, .committed, .closed], .ok a)
      | some e =>
        match rollbackErr with
        | none => ([.created, .rolledBack, .closed], .error e)
        | some e2 => ([.created, .closed], .error e2)

/-! Concrete values used to instantiate theorems. -/

/-- Settings as in the end-to-end example of the spec: default 30 minute
TTL. -/
def demoSettings : Settings :=
  { SECRET_KEY := 5, ACCESS_TOKEN_EXPIRE_MINUTES := 30 }

/-- A concrete registration payload. -/
def demoReg : UserRegistrationRequest :=
  { email := "a@x.com", full_name := "A B", phone := none, bio := none,
    currency := "INR", timezone := "Asia/Kolkata", password := "Abcdef12" }

/-- A concrete stored user row. -/
def demoUser : UserEntity :=
  { user_id := 7, email := "a@x.com", full_name := "A B",
    hashed_password := create_password_hash 3 "Abcdef12",
    is_active := true, is_verified := false, last_login := none,
    phone := none, avatar_url := none, bio := none,
    currency := "INR", timezone := "Asia/Kolkata" }

/-- The row UserCRUD.create builds from demoReg with salt 3 and id 9. -/
def demoCreated : UserEntity :=
  { user_id := 9, email := "a@x.com", full_name := "A B",
    hashed_password := create_password_hash 3 "Abcdef12",
    is_active := true, is_verified := false, last_login := none,
    phone := none, avatar_url := none, bio := none,
    currency := "INR", timezone := "Asia/Kolkata" }

/-- A concrete pool configuration. -/
def demoCfg : EngineConfig :=
  { pool_size := 10, max_overflow := 20, pool_timeout := 30,
    pool_recycle := 3600, pool_pre_ping := true }

/-- A session manager that has been initialized once. -/
def demoManager : DatabaseSessionManager :=
  DatabaseSessionManager.new.init_db demoCfg

/-! Theorems. -/

/-- C1: for every subject id and nonnegative TTL, issuing an access token and
immediately verifying it succeeds, the returned subject id equals the input
id, and the purpose tag of the decoded claims is access. -/
theorem issue_then_verify_roundtrip (s : Settings) (now uid : Int)
    (expires_delta : Option Int)
    (hdef : 0 ≤ s.ACCESS_TOKEN_EXPIRE_MINUTES)
    (hed : ∀ d, expires_delta = some d → 0 ≤ d) :
    verify_token s now (create_access_token s now (.int uid) expires_delta)
      = .ok (some { user_id := uid }) ∧
    ∃ p, jwtDecode s.SECRET_KEY now
        (create_access_token s now (.int uid) expires_delta) = some p ∧
      p.sub = some (.int uid) ∧ p.type = some "access" := by
  have main : ∀ delta : Int, 0 ≤ delta →
      verify_token s now (jwtEncode s.SECRET_KEY
        { sub := some (.int uid), exp := now + delta, iat := now,
          type := some "access" }) = .ok (some { user_id := uid }) ∧
      ∃ p, jwtDecode s.SECRET_KEY now (jwtEncode s.SECRET_KEY
        { sub := some (.int uid), exp := now + delta, iat := now,
          type := some "access" }) = some p ∧
        p.sub = some (.int uid) ∧ p.type = some "access" := by
    intro delta hδ
    have hlt : ¬ (now + delta < now) := by omega
    refine ⟨?_, ?_⟩
    · simp [verify_token, jwtDecode, jwtEncode, pyInt, hlt]
    · refine ⟨⟨some (.int uid), now + delta, now, some "access"⟩, ?_, rfl, rfl⟩
      simp [jwtDecode, jwtEncode, hlt]
  simp only [create_access_token]
  cases expires_delta with
  | none =>
    exact main _ (by positivity)
  | some d =>
    by_cases hd : d = 0
    · simpa [hd] using main _ (by positivity)
    · simpa [hd] using main _ (hed d rfl)

/-- C1 witness: a token for subject 7 with the default TTL verifies
immediately and yields subject 7 with purpose access. -/
theorem issue_then_verify_roundtrip_witness :
    verify_token demoSettings 0
        (create_access_token demoSettings 0 (.int 7) none)
      = .ok (some { user_id := 7 }) ∧
    ∃ p, jwtDecode demoSettings.SECRET_KEY 0
        (create_access_token demoSettings 0 (.int 7) none) = some p ∧
      p.sub = some (.int 7) ∧ p.type = some "access" :=
  issue_then_verify_roundtrip demoSettings 0 7 none (by decide)
    (fun _ h => Option.noConfusion h)

/-- C4: verifying a password against its own hash succeeds, verifying a
different password against it fails, and hashing the same password under two
distinct salts gives distinct digests that both verify. -/
theorem password_hash_verify_props (salt salt2 : Nat) (p p2 : String)
    (hne : p2 ≠ p) (hs : salt ≠ salt2) :
    verify_password p (create_password_hash salt p) = .ok true ∧
    verify_password p2 (create_password_hash salt p) = .ok false ∧
    create_password_hash salt p ≠ create_password_hash salt2 p ∧
    verify_password p (create_password_hash salt2 p) = .ok true := by
  refine ⟨?_, ?_, ?_, ?_⟩
  · simp [verify_password, create_password_hash]
  · simp only [verify_password, create_password_hash]
    have hk : bcryptKdf salt p2 ≠ bcryptKdf salt p := by
      intro h
      apply hne
      simp only [bcryptKdf, List.append_cancel_left_eq] at h
      exact String.ext (by simpa using h)
    simp [beq_eq_false_iff_ne, hk]
  · simp [create_password_hash, hs]
  · simp [verify_password, create_password_hash]

/-- C4 witness at concrete passwords and salts. -/
theorem password_hash_verify_props_witness :
    verify_password "Abcdef12" (create_password_hash 0 "Abcdef12") = .ok true ∧
    verify_password "Abcdef13" (create_password_hash 0 "Abcdef12") = .ok false ∧
    create_password_hash 0 "Abcdef12" ≠ create_password_hash 1 "Abcdef12" ∧
    verify_password "Abcdef12" (create_password_hash 1 "Abcdef12") = .ok true :=
  password_hash_verify_props 0 1 "Abcdef12" "Abcdef13" (by decide) (by decide)

/-- C5 counterexample: on a digest no configured scheme recognizes, the
verify routine raises rather than returning false. -/
theorem malformed_digest_counterexample :
    verify_password "Abcdef12" (Digest.unrecognized "not-a-digest")
        = .error (.unknownHashErr "hash could not be identified") ∧
    verify_password "Abcdef12" (Digest.unrecognized "not-a-digest")
        ≠ .ok false := by
  constructor <;> decide

/-- C5 amended: for every password and every syntactically malformed digest
string, verify raises the unknown-hash error instead of returning false. -/
theorem malformed_digest_raises (p str : String) :
    verify_password p (Digest.unrecognized str)
      = .error (.unknownHashErr "hash could not be identified") := rfl

/-- C2: evaluating the resolve-current-user flow on a validly signed,
unexpired access token over a store with no matching user yields the generic
500 Login failed error, not the 401 credentials error the claim requires: the
DAO call raises before the missing-user branch can run. -/
theorem resolve_missing_user_gives_500 :
    AuthService.get_current_user demoSettings 0 []
        (create_access_token demoSettings 0 (.int 1) none)
      = .error (.http 500 "Login failed") ∧
    AuthService.get_current_user demoSettings 0 []
        (create_access_token demoSettings 0 (.int 1) none)
      ≠ .error (.http 401 "Could not validate credentials") := by
  constructor <;> decide

/-- C6 counterexample: when the email is free at check time but a concurrent
commit makes the insert violate the unique constraint, registration surfaces
the opaque 500 Registration failed error, not the duplicate-email error. -/
theorem duplicate_insert_race_counterexample :
    (AuthService.register_user 3 9 [] [demoUser] demoReg).1
      = .error (.http 500 "Registration failed") ∧
    (AuthService.register_user 3 9 [] [demoUser] demoReg).1
      ≠ .error (.http 400 "Email already registered") := by
  constructor <;> decide

/-- C6 amended: registering an email that already has a record fails with the
duplicate-email error and leaves the store unmodified, but a unique
constraint violation raised by the insert itself is mapped to the opaque 500
Registration failed error, not to the duplicate-email error. -/
theorem duplicate_email_mapping (salt newId : Nat)
    (checkStore insertStore : List UserEntity)
    (reg : UserRegistrationRequest) :
    ((get_by_email checkStore reg.email).isSome = true →
      AuthService.register_user salt newId checkStore insertStore reg
        = (.error (.http 400 "Email already registered"), insertStore)) ∧
    (get_by_email checkStore reg.email = none →
      (get_by_email insertStore reg.email).isSome = true →
      AuthService.register_user salt newId checkStore insertStore reg
        = (.error (.http 500 "Registration failed"), insertStore)) := by
  constructor
  · intro h
    obtain ⟨u, hu⟩ := Option.isSome_iff_exists.mp h
    simp [AuthService.register_user, UserCRUD.create, hu]
  · intro h1 h2
    obtain ⟨u, hu⟩ := Option.isSome_iff_exists.mp h2
    simp [AuthService.register_user, UserCRUD.create, h1, hu]

/-- C6 amended witness: both branches exercised at concrete stores. -/
theorem duplicate_email_mapping_witness :
    AuthService.register_user 3 9 [demoUser] [demoUser] demoReg
      = (.error (.http 400 "Email already registered"), [demoUser]) ∧
    AuthService.register_user 3 9 [] [demoUser] demoReg
      = (.error (.http 500 "Registration failed"), [demoUser]) :=
  ⟨(duplicate_email_mapping 3 9 [demoUser] [demoUser] demoReg).1 (by decide),
   (duplicate_email_mapping 3 9 [] [demoUser] demoReg).2 (by decide) (by decide)⟩

/-- Helper: every key of a dumped representation is a declared response
field. -/
theorem keys_of_dump_mem (d : List (String × FieldVal)) :
    ∀ k ∈ (modelDumpExcludeNone d).map Prod.fst, k ∈ userResponseFields := by
  intro k hk
  simp only [modelDumpExcludeNone, List.mem_map] at hk
  obtain ⟨kv, hkv, rfl⟩ := hk
  have h2 := List.mem_of_mem_filter hkv
  simp only [List.mem_map] at h2
  obtain ⟨k0, hk0, rfl⟩ := h2
  exact hk0

/-- Helper: the projection shared by register, login and current-user
resolution produces only declared public keys and no password-hash field. -/
theorem publicKeysOnly_publicUser (u : UserEntity) :
    publicKeysOnly (publicUser u) = true := by
  have hsub := keys_of_dump_mem u.to_dict
  have hno : ¬ ("hashed_password" ∈ (publicUser u).map Prod.fst) := by
    intro hmem
    have := hsub _ hmem
    simp [userResponseFields] at this
  have hno2 : ¬ ("password" ∈ (publicUser u).map Prod.fst) := by
    intro hmem
    have := hsub _ hmem
    simp [userResponseFields] at this
  simp only [publicKeysOnly, Bool.and_eq_true, List.all_eq_true]
  refine ⟨⟨?_, ?_⟩, ?_⟩
  · intro k hk
    have := hsub k hk
    simp [this]
  · simp [hno]
  · simp [hno2]

/-- C3: the public user representation built from any stored row, and the
user payload of every successful register, login and current-user result,
contains only declared response fields and in particular no password-hash
field. -/
theorem public_representation_no_secret (u : UserEntity) (salt newId : Nat)
    (checkStore insertStore store : List UserEntity)
    (reg : UserRegistrationRequest) (s : Settings) (now : Int)
    (ld : LoginRequest) (ue re : Option PyErr) (tok : Token) :
    publicKeysOnly (publicUser u) = true ∧
    (∀ pu st, AuthService.register_user salt newId checkStore insertStore reg
        = (.ok pu, st) → publicKeysOnly pu = true) ∧
    (∀ resp st, AuthService.authenticate_user s now store ld ue re
        = (.ok resp, st) → publicKeysOnly resp.user = true) ∧
    (∀ pu, AuthService.get_current_user s now store tok = .ok pu →
      publicKeysOnly pu = true) := by
  refine ⟨publicKeysOnly_publicUser u, ?_, ?_, ?_⟩
  · intro pu st h
    rw [AuthService.register_user.eq_def] at h
    rcases hC : UserCRUD.create salt newId checkStore insertStore reg with ⟨res, st2⟩
    rw [hC] at h
    cases res with
    | ok w =>
      simp only [Prod.mk.injEq, Except.ok.injEq] at h
      obtain ⟨rfl, -⟩ := h
      exact publicKeysOnly_publicUser w
    | error e => cases e <;> simp at h
  · intro resp st h
    rw [AuthService.authenticate_user.eq_def] at h
    cases hA : UserCRUD.authenticate store ld.email ld.password with
    | error e2 => rw [hA] at h; simp at h
    | ok ou =>
      rw [hA] at h
      cases ou with
      | none => simp at h
      | some user =>
        by_cases hact : user.is_active = false
        · simp [hact] at h
        · simp only [if_neg hact] at h
          cases re with
          | some e2 => simp at h
          | none =>
            simp only [Prod.mk.injEq, Except.ok.injEq] at h
            obtain ⟨rfl, -⟩ := h
            exact publicKeysOnly_publicUser _
  · intro pu h
    rw [AuthService.get_current_user.eq_def] at h
    cases hV : verify_token s now tok with
    | error e2 => rw [hV] at h; simp at h
    | ok otd =>
      rw [hV] at h
      cases otd with
      | none => simp at h
      | some td => simp [dao_get_call] at h

/-- C3 witness: the projection and a concrete successful registration both
pass the key check. -/
theorem public_representation_no_secret_witness :
    publicKeysOnly (publicUser demoUser) = true ∧
    publicKeysOnly (publicUser demoCreated) = true :=
  ⟨(public_representation_no_secret demoUser 3 9 [] [] [] demoReg demoSettings
      0 ⟨"a@x.com", "Abcdef12"⟩ none none (.garbage "x")).1,
   (public_representation_no_secret demoCreated 3 9 [] [] [] demoReg
      demoSettings 0 ⟨"a@x.com", "Abcdef12"⟩ none none (.garbage "x")).2.1
     (publicUser demoCreated) [demoCreated] (by decide)⟩

/-- C7: for an initialized manager, a unit of work that succeeds is
committed, one that raises is rolled back with the original error
propagated, and on every path, including a failing commit or a failing
rollback, the session close is the last action before control returns. -/
theorem scoped_session_contract (α : Type) (m : DatabaseSessionManager)
    (unit : Except PyErr α) (commitErr rollbackErr : Option PyErr)
    (hinit : m.is_initialized = true) (hfac : m.session_factory = true) :
    (∀ a, unit = .ok a → commitErr = none →
      get_session_run α m unit commitErr rollbackErr
        = ([.created, .committed, .closed], .ok a)) ∧
    (∀ e, unit = .error e → rollbackErr = none →
      get_session_run α m unit commitErr rollbackErr
        = ([.created, .rolledBack, .closed], .error e)) ∧
    (get_session_run α m unit commitErr rollbackErr).1.getLast?
      = some .closed := by
  have hguard : ¬ (m.is_initialized = false ∨ m.session_factory = false) := by
    simp [hinit, hfac]
  refine ⟨?_, ?_, ?_⟩
  · rintro a rfl rfl
    simp [get_session_run, hguard]
  · rintro e rfl rfl
    simp [get_session_run, hguard]
  · cases unit with
    | ok a =>
      cases commitErr with
      | none => simp [get_session_run, hguard]
      | some e => cases rollbackErr <;> simp [get_session_run, hguard]
    | error e => cases rollbackErr <;> simp [get_session_run, hguard]

/-- C7 witness: the three clauses at a concrete initialized manager. -/
theorem scoped_session_contract_witness :
    get_session_run Nat demoManager (.ok 42) none none
      = ([.created, .committed, .closed], .ok 42) ∧
    get_session_run Nat demoManager (.error (.dbErr "boom")) none none
      = ([.created, .rolledBack, .closed], .error (.dbErr "boom")) ∧
    (get_session_run Nat demoManager (.ok 42) (some (.dbErr "commit failed"))
        (some (.dbErr "rollback failed"))).1.getLast? = some .closed :=
  ⟨(scoped_session_contract Nat demoManager (.ok 42) none none rfl rfl).1
      42 rfl rfl,
   (scoped_session_contract Nat demoManager (.error (.dbErr "boom")) none none
      rfl rfl).2.1 (.dbErr "boom") rfl rfl,
   (scoped_session_contract Nat demoManager (.ok 42)
      (some (.dbErr "commit failed")) (some (.dbErr "rollback failed"))
      rfl rfl).2.2⟩

/-- Helper: updating last_login does not change the public representation,
because the response schema declares no last_login field. -/
theorem publicUser_setLastLogin (u : UserEntity) (t : Int) :
    publicUser (u.setLastLogin t) = publicUser u := rfl

/-- Helper: the last-login UPDATE commutes with the primary-key lookup used
by db.refresh. -/
theorem get_by_user_id_map_touch (store : List UserEntity) (uid : Nat)
    (t : Int) :
    get_by_user_id (store.map (fun v =>
        if v.user_id == uid then v.setLastLogin t else v)) uid
      = (get_by_user_id store uid).map (fun v =>
          if v.user_id == uid then v.setLastLogin t else v) := by
  have hfun : ((fun u : UserEntity => u.user_id == uid) ∘ (fun v =>
      if v.user_id == uid then v.setLastLogin t else v))
      = (fun u : UserEntity => u.user_id == uid) := by
    funext v
    by_cases h : (v.user_id == uid) = true <;>
      simp [Function.comp, UserEntity.setLastLogin, h]
  unfold get_by_user_id
  rw [List.find?_map, hfun]

/-- C8: the login result is the same whether or not the last-login update
fails: the failure is swallowed inside the update helper and the already
issued token is still returned. -/
theorem last_login_failure_swallowed (s : Settings) (now : Int)
    (store : List UserEntity) (ld : LoginRequest)
    (e : PyErr) (refreshErr : Option PyErr) :
    (AuthService.authenticate_user s now store ld (some e) refreshErr).1
      = (AuthService.authenticate_user s now store ld none refreshErr).1 := by
  rw [AuthService.authenticate_user.eq_def, AuthService.authenticate_user.eq_def]
  cases hA : UserCRUD.authenticate store ld.email ld.password with
  | error e2 => rfl
  | ok ou =>
    cases ou with
    | none => rfl
    | some user =>
      by_cases hact : user.is_active = false
      · simp [hact]
      · simp only [if_neg hact]
        cases refreshErr with
        | some e2 => rfl
        | none =>
          rw [get_by_user_id_map_touch]
          cases hF : get_by_user_id store user.user_id with
          | none => simp
          | some w =>
            have hw : w.user_id = user.user_id := by
              have := List.find?_some hF
              simpa [get_by_user_id] using this
            simp [hw, publicUser_setLastLogin]

/-- C9: every row produced by the repository create operation has is_active
true and is_verified false, whatever the registration payload contained. -/
theorem created_user_flags (salt newId : Nat)
    (checkStore insertStore : List UserEntity)
    (reg : UserRegistrationRequest) (u : UserEntity) (st : List UserEntity)
    (h : UserCRUD.create salt newId checkStore insertStore reg = (.ok u, st)) :
    u.is_active = true ∧ u.is_verified = false := by
  rw [UserCRUD.create.eq_def] at h
  cases h1 : get_by_email checkStore reg.email with
  | some w => rw [h1] at h; simp at h
  | none =>
    rw [h1] at h
    cases h2 : get_by_email insertStore reg.email with
    | some w => rw [h2] at h; simp at h
    | none =>
      rw [h2] at h
      simp only [Prod.mk.injEq, Except.ok.injEq] at h
      obtain ⟨h3, -⟩ := h
      subst h3
      exact ⟨rfl, rfl⟩

/-- C9 witness: the concrete row created from demoReg has the two flags. -/
theorem created_user_flags_witness :
    demoCreated.is_active = true ∧ demoCreated.is_verified = false :=
  created_user_flags 3 9 [] [] demoReg demoCreated [demoCreated] (by decide)

/-- C10: closing an initialized manager returns it to the uninitialized
state: acquisitions fail with the not-initialized error, and a subsequent
init_db succeeds and rebuilds the engine, after which acquisition works
again. -/
theorem close_returns_to_uninitialized (m : DatabaseSessionManager)
    (cfg : EngineConfig) (α : Type) (a : α)
    (unit : Except PyErr α) (ce re : Option PyErr)
    (hwf : m.is_initialized = true → m.engine.isSome = true) :
    m.close.is_initialized = false ∧
    get_session_run α m.close unit ce re
      = ([], .error (.runtimeErr
          "Database session manager is not initialized. Call init_db() first.")) ∧
    m.close.init_db cfg
      = { engine := some cfg, session_factory := true,
          is_initialized := true } ∧
    get_session_run α (m.close.init_db cfg) (.ok a) none none
      = ([.created, .committed, .closed], .ok a) := by
  have hclosed : m.close.is_initialized = false := by
    rw [DatabaseSessionManager.close.eq_def]
    cases he : m.engine with
    | some c => rfl
    | none =>
      cases hb : m.is_initialized with
      | false => rfl
      | true => exact absurd (hwf hb) (by simp [he])
  have hrun : get_session_run α m.close unit ce re
      = ([], .error (.runtimeErr
          "Database session manager is not initialized. Call init_db() first.")) := by
    rw [get_session_run.eq_def, if_pos (Or.inl hclosed)]
  have hinitdb : m.close.init_db cfg
      = { engine := some cfg, session_factory := true,
          is_initialized := true } := by
    rw [DatabaseSessionManager.init_db.eq_def, if_neg (by simp [hclosed])]
  exact ⟨hclosed, hrun, hinitdb, by rw [hinitdb]; rfl⟩

/-- C10 witness: the full cycle at a concrete manager and configuration. -/
theorem close_returns_to_uninitialized_witness :
    demoManager.close.is_initialized = false ∧
    get_session_run Nat demoManager.close (.ok 1) none none
      = ([], .error (.runtimeErr
          "Database session manager is not initialized. Call init_db() first.")) ∧
    demoManager.close.init_db demoCfg
      = { engine := some demoCfg, session_factory := true,
          is_initialized := true } ∧
    get_session_run Nat (demoManager.close.init_db demoCfg) (.ok 1) none none
      = ([.created, .committed, .closed], .ok 1) :=
  close_returns_to_uninitialized demoManager demoCfg Nat 1 (.ok 1) none none
    (by decide)

end Payzy
